import Mathlib

/-!
Verification of the glucowizard report ingestion and query endpoints
(`src/reports/views.py`, `src/reports/models.py`) against its
natural-language specification.

The Django views are shallowly embedded as pure Lean functions.  External
collaborators (the Supabase object store, the OpenAI client, the stdlib
JSON parser) become oracle parameters: the outcome the external system
would produce for this request is passed in, and every external call the
view issues is recorded in an explicit trace so that "before any external
call" claims are observable.
-/

namespace Glucowizard

/-- JSON values, as stored in Django `JSONField` columns and as produced by
`json.loads`. Numbers are modelled as integers (no claim depends on float
payloads). -/
inductive Json where
  | null
  | bool (b : Bool)
  | num (n : Int)
  | str (s : String)
  | arr (elems : List Json)
  | obj (fields : List (String × Json))

/-- Python truthiness of a JSON value (`not value`): `None`, `False`, `0`,
`""`, `[]` and `{}` are falsy. -/
def Json.isFalsy : Json → Bool
  | .null => true
  | .bool b => !b
  | .num n => n == 0
  | .str s => s == ""
  | .arr xs => xs.isEmpty
  | .obj kvs => kvs.isEmpty

/-- Dictionary lookup, `d[k]` for a JSON object; `none` when the key is
absent.  On a non-object the Python code would raise `AttributeError`;
theorems over stored values restrict to object-or-falsy readings where the
distinction matters. -/
def Json.get (j : Json) (k : String) : Option Json :=
  match j with
  | .obj kvs => (kvs.find? (fun kv => kv.1 == k)).map (fun kv => kv.2)
  | _ => none

/-- `reports.models.AdminPrompt`: admin-controlled instructions appended to
the inference prompt. `updated_at` is modelled as an integer timestamp. -/
structure AdminPrompt where
  is_active : Bool
  custom_instructions : String
  updated_at : Int
deriving Repr, DecidableEq

/-- `reports.models.Report`.  The `uuid4` primary key is modelled as a
fresh natural number drawn from a never-repeating supply held by the
record store (`Db.nextId`), which is the semantics the unique-id default
provides. `created_at` is an integer timestamp in seconds. -/
structure Report where
  id : Nat
  user : Nat
  diabetic_values : Json
  pdf_file : String
  ai_summary_text : String
  ai_raw : Json
  openai_response_id : String
  status : String
  error_message : String
  created_at : Int

/-- The record store: the `Report` and `AdminPrompt` tables plus the
fresh-id supply standing for `uuid.uuid4`. -/
structure Db where
  reports : List Report
  admin_prompts : List AdminPrompt
  nextId : Nat

/-- `Report.objects.create(...)`: append the new row and advance the id
supply. -/
def Db.insertReport (db : Db) (r : Report) : Db :=
  { db with reports := db.reports ++ [r], nextId := db.nextId + 1 }

/-- `report.save()` on an existing row: replace the row with the same id. -/
def Db.save (db : Db) (r : Report) : Db :=
  { db with reports := db.reports.map (fun x => if x.id = r.id then r else x) }

/-- The three environment variables read at the top of `create_report`;
`none` models an unset variable (`os.getenv` returning `None`). -/
structure Env where
  SUPABASE_URL : Option String
  SUPABASE_KEY : Option String
  OPENAI_API_KEY : Option String
deriving Repr, DecidableEq

/-- Python truthiness of an `os.getenv` result: unset (`None`) and the
empty string are falsy. -/
def envTruthy : Option String → Bool
  | none => false
  | some s => s ≠ ""

/-- The `missing` list of `create_report` step 1: configuration keys whose
value is falsy, in the order they are listed in the source. -/
def missingKeys (env : Env) : List String :=
  (([("SUPABASE_URL", env.SUPABASE_URL),
     ("SUPABASE_KEY", env.SUPABASE_KEY),
     ("OPENAI_API_KEY", env.OPENAI_API_KEY)].filter
        (fun kv => !envTruthy kv.2)).map (fun kv => kv.1))

/-- The `diabetic_values` entry of `request.data`: absent, a string to be
parsed, or an already-decoded JSON value (multipart vs JSON body). -/
inductive Payload where
  | absent
  | str (s : String)
  | json (j : Json)

/-- Step 2 of `create_report`: `json.loads` a string payload (the stdlib
parser is the oracle `parse`), reject unparsable strings, default a
missing or falsy payload to the empty mapping. -/
def parseDiabeticValues (parse : String → Option Json) : Payload → Except String Json
  | .absent => .ok (Json.obj [])
  | .str s =>
    match parse s with
    | some j => .ok j
    | none => .error "diabetic_values must be valid JSON"
  | .json j => .ok (if j.isFalsy then Json.obj [] else j)

/-- An uploaded file from `request.FILES`. -/
structure PdfFile where
  name : String
  content_type : String
  content : List Nat
deriving Repr, DecidableEq

mutual

/-- `json.dumps` as used when the readings are embedded into the prompt.
The exact quoting of special characters inside strings is not modelled
(no claim distinguishes it); structure, key order and separators follow
the stdlib defaults. -/
def Json.dumps : Json → String
  | .null => "null"
  | .bool true => "true"
  | .bool false => "false"
  | .num n => toString n
  | .str s => "\"" ++ s ++ "\""
  | .arr xs => "[" ++ Json.dumpsElems xs ++ "]"
  | .obj kvs => "\x7b" ++ Json.dumpsFields kvs ++ "\x7d"

def Json.dumpsElems : List Json → String
  | [] => ""
  | [x] => Json.dumps x
  | x :: y :: rest => Json.dumps x ++ ", " ++ Json.dumpsElems (y :: rest)

def Json.dumpsFields : List (String × Json) → String
  | [] => ""
  | [(k, v)] => "\"" ++ k ++ "\": " ++ Json.dumps v
  | (k, v) :: kv :: rest =>
    "\"" ++ k ++ "\": " ++ Json.dumps v ++ ", " ++ Json.dumpsFields (kv :: rest)

end

/-- The fixed instructional template of `create_report` step 5, ending in
the serialized current insulin parameters. -/
def systemPromptTemplate (dv : Json) : String :=
  "Analyze the following diabetes management data.\n\n" ++
  "### Inputs Provided\n" ++
  "- CGM report (time-series and summary statistics)\n" ++
  "- Current insulin dosing parameters\n\n" ++
  "### Tasks\n" ++
  "1. Analyze CGM trends and glucose control patterns\n" ++
  "2. Identify hyperglycemia, hypoglycemia, and variability issues\n" ++
  "3. Provide clinically reasonable suggested adjustments for:\n" ++
  "   - Bolus insulin ratio (insulin-to-carb)\n" ++
  "   - Basal insulin rate\n" ++
  "   - Correction factor (insulin sensitivity)\n\n" ++
  "### Rules\n" ++
  "- Suggestions must be conservative and expressed as ranges or directional changes\n" ++
  "- Do NOT present recommendations as final prescriptions\n" ++
  "- Clearly note when trends are uncertain or data is insufficient\n\n" ++
  "Also return a JSON object with fields: summary, analysis[], recommendations[] and suggested_insulin_parameters of basal_ratio, bolus_ratio and correction_factor.\n\n" ++
  "### Current Insulin Parameters (JSON)\n" ++
  Json.dumps dv

/-- Descending order on `updated_at`: the `Meta.ordering = ["-updated_at"]`
of `AdminPrompt`. -/
def updatedDesc (a b : AdminPrompt) : Prop := b.updated_at ≤ a.updated_at

instance : DecidableRel updatedDesc := fun a b => Int.decLe b.updated_at a.updated_at

instance : IsTotal AdminPrompt updatedDesc :=
  ⟨fun a b => Int.le_total b.updated_at a.updated_at⟩

instance : IsTrans AdminPrompt updatedDesc := ⟨fun _ _ _ h1 h2 => Int.le_trans h2 h1⟩

/-- `AdminPrompt.objects.filter(is_active=True).first()` under the model's
default ordering: sort the active rows by `updated_at` descending (stable,
so ties fall back to table order) and take the head. -/
def mostRecentActive (ps : List AdminPrompt) : Option AdminPrompt :=
  (List.insertionSort updatedDesc (ps.filter (fun p => p.is_active))).head?

/-- Prompt construction of `create_report`: the fixed template, plus the
additional-instructions section when an active admin prompt with truthy
(nonempty) `custom_instructions` exists. -/
def buildSystemPrompt (dv : Json) (ps : List AdminPrompt) : String :=
  let base := systemPromptTemplate dv
  match mostRecentActive ps with
  | some p =>
    if p.custom_instructions ≠ "" then
      base ++ "\n\n### Additional Instructions\n" ++ p.custom_instructions
    else base
  | none => base

/-- Claim C7's reading of prompt construction, following the spec's words:
whenever at least one active policy exists, the instructions of the
most-recently-updated active instance are appended (after the
additional-instructions header) with no further condition; only when no
policy is active is the template left unchanged.  To be compared against
`buildSystemPrompt`, which is translated from the source. -/
def buildSystemPromptClaim (dv : Json) (ps : List AdminPrompt) : String :=
  match mostRecentActive ps with
  | some p =>
    systemPromptTemplate dv ++ "\n\n### Additional Instructions\n" ++ p.custom_instructions
  | none => systemPromptTemplate dv

/-- A response object of the newer `client.responses.create` endpoint.
`id_attr`/`output_text` are `none` when the attribute is missing or `None`
(the code reads them with `getattr(_, _, "")` and `or ""`); `dump` is
`none` when the object has no `model_dump`. -/
structure StructuredResp where
  id_attr : Option String
  output_text : Option String
  dump : Option Json

/-- A response object of the legacy `client.chat.completions.create`
endpoint: the completion id, the message contents of `choices`, and the
`model_dump` result when present. -/
structure ChatResp where
  id : String
  choiceContents : List String
  dump : Option Json

/-- The OpenAI client together with the outcome the external service
produces for this request: either the client exposes the
structured-responses capability (`hasattr(client, "responses")`) or only
chat completions; in either case the call may raise. -/
inductive Client where
  | withResponses (outcome : Except String StructuredResp)
  | chatOnly (outcome : Except String ChatResp)

/-- The fields written back onto the report by a successful inference. -/
structure InferenceFields where
  openai_response_id : String
  ai_summary_text : String
  ai_raw : Json

/-- Capability detection and result extraction of `create_report` step 5:
the structured branch reads the top-level id, output text and structured
dump (with empty/`\x7b\x7d` defaults); the chat branch reads the
completion id and the first choice's message content (an empty `choices`
raises `IndexError`, caught and re-wrapped like any API error). -/
def runInference (client : Client) : Except String InferenceFields :=
  match client with
  | .withResponses (.ok r) =>
    .ok ⟨r.id_attr.getD "", r.output_text.getD "", r.dump.getD (Json.obj [])⟩
  | .withResponses (.error e) => .error ("OpenAI API error: " ++ e)
  | .chatOnly (.ok r) =>
    match r.choiceContents with
    | c :: _ => .ok ⟨r.id, c, r.dump.getD (Json.obj [])⟩
    | [] => .error "OpenAI API error: list index out of range"
  | .chatOnly (.error e) => .error ("OpenAI API error: " ++ e)

/-- An external call issued by a view, recorded in order. -/
inductive ExtCall where
  | upload (path : String) (content : List Nat)
  | infer (prompt : String) (hasFilePart : Bool)

/-- A view's result: HTTP response, record store after the request, and
the trace of external calls made. -/
inductive RespBody where
  | errMsg (error : String)
  | detail (report : Report)

structure HttpResp where
  status : Nat
  body : RespBody

structure Outcome where
  resp : HttpResp
  db : Db
  calls : List ExtCall

/-- The storage key of `create_report` step 3:
`f"{user.id}_{now.timestamp()}_{pdf.name}"`. -/
def mkPdfPath (userId : Nat) (now : Int) (name : String) : String :=
  toString userId ++ "_" ++ toString now ++ "_" ++ name

/-- The row written by `Report.objects.create` in `create_report` step 4. -/
def newReport (userId : Nat) (now : Int) (dv : Json) (pdfPath : String) (id : Nat) : Report :=
  { id := id, user := userId, diabetic_values := dv, pdf_file := pdfPath,
    ai_summary_text := "", ai_raw := Json.obj [], openai_response_id := "",
    status := "processing", error_message := "", created_at := now }

/-- Steps 4–6 of `create_report`, entered once the (optional) upload
succeeded: create the row with `status="processing"`, build the prompt,
invoke inference, and write the result (`status="done"`) or the failure
(`status="error"`, `error_message`) back onto the row. -/
def finishReport (dv : Json) (pdfPath : String) (calls : List ExtCall) (hasPdf : Bool)
    (client : Client) (userId : Nat) (now : Int) (db : Db) : Outcome :=
  let report := newReport userId now dv pdfPath db.nextId
  let db1 := db.insertReport report
  let prompt := buildSystemPrompt dv db.admin_prompts
  let calls1 := calls ++ [ExtCall.infer prompt hasPdf]
  match runInference client with
  | .ok f =>
    let done := { report with
      openai_response_id := f.openai_response_id
      ai_summary_text := f.ai_summary_text
      ai_raw := f.ai_raw
      status := "done" }
    ⟨⟨201, .detail done⟩, db1.save done, calls1⟩
  | .error e =>
    let failed := { report with status := "error", error_message := e }
    ⟨⟨500, .detail failed⟩, db1.save failed, calls1⟩

/-- `reports.views.create_report`.  `parse` is the stdlib JSON parser,
`uploadOutcome` the object store's answer to the upload this request
would issue, `client` the OpenAI client with its answer; `now` is
`timezone.now()` and `db` the record store at the start of the request. -/
def create_report (env : Env) (parse : String → Option Json) (payload : Payload)
    (pdf : Option PdfFile) (uploadOutcome : Except String Unit) (client : Client)
    (userId : Nat) (now : Int) (db : Db) : Outcome :=
  let missing := missingKeys env
  if missing ≠ [] then
    ⟨⟨500, .errMsg ("Server configuration error: Missing " ++
        String.intercalate ", " missing)⟩, db, []⟩
  else
    match parseDiabeticValues parse payload with
    | .error msg => ⟨⟨400, .errMsg msg⟩, db, []⟩
    | .ok dv =>
      match pdf with
      | none => finishReport dv "" [] false client userId now db
      | some p =>
        let path := mkPdfPath userId now p.name
        match uploadOutcome with
        | .error e =>
          ⟨⟨500, .errMsg ("Failed to upload PDF to storage: " ++ e)⟩, db,
            [ExtCall.upload path p.content]⟩
        | .ok _ =>
          finishReport dv path [ExtCall.upload path p.content] true client userId now db

/-- The `document_ref` stored by a submission: the derived storage key
when a document is attached, the empty string otherwise. -/
def stagedPath (pdf : Option PdfFile) (userId : Nat) (now : Int) : String :=
  match pdf with
  | none => ""
  | some p => mkPdfPath userId now p.name

/-- The object-store calls a submission issues before inference: one
upload when a document is attached, none otherwise. -/
def uploadCalls (pdf : Option PdfFile) (userId : Nat) (now : Int) : List ExtCall :=
  match pdf with
  | none => []
  | some p => [ExtCall.upload (mkPdfPath userId now p.name) p.content]

/-- Ascending order on `created_at`, the `order_by("created_at")` of
`report_stats`. -/
def createdLE (a b : Report) : Prop := a.created_at ≤ b.created_at

instance : DecidableRel createdLE := fun a b => Int.decLe a.created_at b.created_at

instance : IsTotal Report createdLE := ⟨fun a b => Int.le_total a.created_at b.created_at⟩

instance : IsTrans Report createdLE := ⟨fun _ _ _ h1 h2 => Int.le_trans h1 h2⟩

/-- A stable ascending sort on `created_at`, modelling the database's
`ORDER BY created_at`. -/
def sortByCreated (rs : List Report) : List Report := List.insertionSort createdLE rs

/-- `timedelta(days=1)` in seconds. -/
def secondsPerDay : Int := 86400

/-- One entry of the `stats_data` list built by `report_stats`. -/
structure StatsItem where
  id : Nat
  created_at : Int
  bolus_ratio : Json
  basal_rates : Json
  correction_factors : Json

/-- The projection of one report inside the `report_stats` loop:
`dv = r.diabetic_values or \x7b\x7d`, then `dv.get(key, [])` for the three
series. -/
def projectStats (r : Report) : StatsItem :=
  let dv := if r.diabetic_values.isFalsy then Json.obj [] else r.diabetic_values
  { id := r.id
    created_at := r.created_at
    bolus_ratio := (dv.get "bolus_ratio").getD (Json.arr [])
    basal_rates := (dv.get "basal_rates").getD (Json.arr [])
    correction_factors := (dv.get "correction_factors").getD (Json.arr []) }

/-- The response payload of `report_stats`. -/
structure StatsResp where
  period : String
  count : Nat
  data : List StatsItem

/-- `reports.views.report_stats`: read `period` (default `"week"`), map it
to a 7- or 30-day trailing window, scan the caller's reports with
`created_at >= now - window` in ascending `created_at` order, and project
the three series out of each. -/
def report_stats (db : Db) (userId : Nat) (periodParam : Option String) (now : Int) :
    StatsResp :=
  let period := periodParam.getD "week"
  let days : Int := if period = "week" then 7 else 30
  let startDate := now - days * secondsPerDay
  let rs := sortByCreated (db.reports.filter
    (fun r => r.user == userId && startDate ≤ r.created_at))
  let stats_data := rs.map projectStats
  { period := period, count := stats_data.length, data := stats_data }

/-- The result of the report-detail endpoint: either the uniform DRF
not-found response (`get_object_or_404`), or the serialized report with
its optional freshly signed URL. -/
inductive DetailResult where
  | notFound
  | found (report : Report) (pdf_url : Option String)

/-- The uniform not-found outcome produced by `get_object_or_404`,
identical whether the id does not exist or belongs to another user. -/
def notFoundResult : DetailResult := DetailResult.notFound

/-- `reports.views.get_report_detail`: `get_object_or_404(Report, pk=pk,
user=request.user)`, then a signed URL for `pdf_file` when it is nonempty
(`sign` is the object store's signing oracle). -/
def get_report_detail (sign : String → Option String) (db : Db) (userId : Nat)
    (pk : Nat) : DetailResult :=
  match db.reports.find? (fun r => r.id == pk && r.user == userId) with
  | some r =>
    DetailResult.found r (if r.pdf_file ≠ "" then sign r.pdf_file else none)
  | none => notFoundResult

/-! ### Helper lemmas -/

theorem mostRecentActive_some_spec {ps : List AdminPrompt} {p : AdminPrompt}
    (h : mostRecentActive ps = some p) :
    p ∈ ps ∧ p.is_active = true ∧
      ∀ q ∈ ps, q.is_active = true → q.updated_at ≤ p.updated_at := by
  unfold mostRecentActive at h
  cases hcons : List.insertionSort updatedDesc (ps.filter fun q => q.is_active) with
  | nil => rw [hcons] at h; simp at h
  | cons a tail =>
    rw [hcons, List.head?_cons] at h
    injection h with h
    subst h
    have hmem : a ∈ ps.filter fun q => q.is_active := by
      rw [← List.mem_insertionSort updatedDesc, hcons]
      exact List.mem_cons_self _ _
    have hps := List.mem_filter.1 hmem
    refine ⟨hps.1, hps.2, ?_⟩
    intro q hq hact
    have hqf : q ∈ ps.filter fun q => q.is_active := List.mem_filter.2 ⟨hq, hact⟩
    have hqs : q ∈ List.insertionSort updatedDesc (ps.filter fun q => q.is_active) :=
      (List.mem_insertionSort updatedDesc).2 hqf
    rw [hcons] at hqs
    rcases List.mem_cons.1 hqs with h | h
    · subst h; exact le_refl _
    · have hs := List.sorted_insertionSort updatedDesc (ps.filter fun q => q.is_active)
      rw [hcons] at hs
      exact List.rel_of_sorted_cons hs q h

theorem mostRecentActive_none_iff {ps : List AdminPrompt} :
    mostRecentActive ps = none ↔ ∀ q ∈ ps, q.is_active = false := by
  unfold mostRecentActive
  rw [List.head?_eq_none_iff]
  constructor
  · intro h q hq
    have hperm := List.perm_insertionSort updatedDesc (ps.filter fun q => q.is_active)
    rw [h] at hperm
    have hnil : ps.filter (fun q => q.is_active) = [] := hperm.symm.eq_nil
    have := List.filter_eq_nil_iff.1 hnil q hq
    simpa using this
  · intro h
    have hnil : ps.filter (fun q => q.is_active) = [] :=
      List.filter_eq_nil_iff.2 (fun a ha => by simp [h a ha])
    rw [hnil]
    rfl

theorem save_insert {db : Db} {r0 d : Report}
    (hfresh : ∀ r ∈ db.reports, r.id < db.nextId)
    (h0 : r0.id = db.nextId) (hid : d.id = r0.id) :
    (db.insertReport r0).save d =
      { reports := db.reports ++ [d]
        admin_prompts := db.admin_prompts
        nextId := db.nextId + 1 } := by
  have hd : d.id = db.nextId := hid.trans h0
  have h1 : db.reports.map (fun x => if x.id = d.id then d else x) = db.reports := by
    have hcongr : db.reports.map (fun x => if x.id = d.id then d else x) =
        db.reports.map id := by
      refine List.map_congr_left ?_
      intro a ha
      have h2 := hfresh a ha
      have hne : a.id ≠ d.id := by omega
      simp [hne]
    rw [hcongr, List.map_id]
  have h2 : (if r0.id = d.id then d else r0) = d := if_pos hid.symm
  simp [Db.insertReport, Db.save, List.map_append, h1, h2]

theorem finishReport_ok {dv : Json} {pdfPath : String} {calls : List ExtCall}
    {hasPdf : Bool} {client : Client} {userId : Nat} {now : Int} {db : Db}
    {f : InferenceFields}
    (hfresh : ∀ r ∈ db.reports, r.id < db.nextId)
    (hrun : runInference client = .ok f) :
    finishReport dv pdfPath calls hasPdf client userId now db =
      ⟨⟨201, .detail { newReport userId now dv pdfPath db.nextId with
            openai_response_id := f.openai_response_id
            ai_summary_text := f.ai_summary_text
            ai_raw := f.ai_raw
            status := "done" }⟩,
        { reports := db.reports ++ [{ newReport userId now dv pdfPath db.nextId with
              openai_response_id := f.openai_response_id
              ai_summary_text := f.ai_summary_text
              ai_raw := f.ai_raw
              status := "done" }]
          admin_prompts := db.admin_prompts
          nextId := db.nextId + 1 },
        calls ++ [ExtCall.infer (buildSystemPrompt dv db.admin_prompts) hasPdf]⟩ := by
  have hsave := @save_insert db (newReport userId now dv pdfPath db.nextId)
    { newReport userId now dv pdfPath db.nextId with
      openai_response_id := f.openai_response_id
      ai_summary_text := f.ai_summary_text
      ai_raw := f.ai_raw
      status := "done" } hfresh rfl rfl
  simp only [finishReport, hrun]
  rw [hsave]

theorem finishReport_err {dv : Json} {pdfPath : String} {calls : List ExtCall}
    {hasPdf : Bool} {client : Client} {userId : Nat} {now : Int} {db : Db}
    {e : String}
    (hfresh : ∀ r ∈ db.reports, r.id < db.nextId)
    (hrun : runInference client = .error e) :
    finishReport dv pdfPath calls hasPdf client userId now db =
      ⟨⟨500, .detail { newReport userId now dv pdfPath db.nextId with
            status := "error"
            error_message := e }⟩,
        { reports := db.reports ++ [{ newReport userId now dv pdfPath db.nextId with
              status := "error"
              error_message := e }]
          admin_prompts := db.admin_prompts
          nextId := db.nextId + 1 },
        calls ++ [ExtCall.infer (buildSystemPrompt dv db.admin_prompts) hasPdf]⟩ := by
  have hsave := @save_insert db (newReport userId now dv pdfPath db.nextId)
    { newReport userId now dv pdfPath db.nextId with
      status := "error"
      error_message := e } hfresh rfl rfl
  simp only [finishReport, hrun]
  rw [hsave]

theorem finishReport_creates (dv : Json) (pdfPath : String) (calls : List ExtCall)
    (hasPdf : Bool) (client : Client) (userId : Nat) (now : Int) (db : Db)
    (hfresh : ∀ r ∈ db.reports, r.id < db.nextId) :
    ∃ final : Report,
      (finishReport dv pdfPath calls hasPdf client userId now db).db =
        { reports := db.reports ++ [final]
          admin_prompts := db.admin_prompts
          nextId := db.nextId + 1 } ∧
      (finishReport dv pdfPath calls hasPdf client userId now db).resp.body =
        .detail final ∧
      (finishReport dv pdfPath calls hasPdf client userId now db).calls =
        calls ++ [ExtCall.infer (buildSystemPrompt dv db.admin_prompts) hasPdf] ∧
      final.id = db.nextId ∧ final.user = userId ∧ final.created_at = now ∧
      final.diabetic_values = dv ∧ final.pdf_file = pdfPath ∧
      (final.status = "done" ∨ final.status = "error") := by
  cases hrun : runInference client with
  | ok f =>
    refine ⟨{ newReport userId now dv pdfPath db.nextId with
      openai_response_id := f.openai_response_id
      ai_summary_text := f.ai_summary_text
      ai_raw := f.ai_raw
      status := "done" }, ?_⟩
    rw [finishReport_ok hfresh hrun]
    exact ⟨rfl, rfl, rfl, rfl, rfl, rfl, rfl, rfl, Or.inl rfl⟩
  | error e =>
    refine ⟨{ newReport userId now dv pdfPath db.nextId with
      status := "error"
      error_message := e }, ?_⟩
    rw [finishReport_err hfresh hrun]
    exact ⟨rfl, rfl, rfl, rfl, rfl, rfl, rfl, rfl, Or.inr rfl⟩

theorem finishReport_status (dv : Json) (pdfPath : String) (calls : List ExtCall)
    (hasPdf : Bool) (client : Client) (userId : Nat) (now : Int) (db : Db) :
    (finishReport dv pdfPath calls hasPdf client userId now db).resp.status = 201 ∨
    (finishReport dv pdfPath calls hasPdf client userId now db).resp.status = 500 := by
  cases hrun : runInference client with
  | ok f => left; simp only [finishReport, hrun]
  | error e => right; simp only [finishReport, hrun]

theorem create_report_eq_finish (env : Env) (parse : String → Option Json)
    (payload : Payload) (pdf : Option PdfFile) (upload : Except String Unit)
    (client : Client) (userId : Nat) (now : Int) (db : Db) (dv : Json)
    (hkeys : missingKeys env = [])
    (hparse : parseDiabeticValues parse payload = .ok dv)
    (hupload : pdf = none ∨ upload = Except.ok ()) :
    create_report env parse payload pdf upload client userId now db =
      finishReport dv (stagedPath pdf userId now) (uploadCalls pdf userId now)
        pdf.isSome client userId now db := by
  cases pdf with
  | none => simp [create_report, hkeys, hparse, stagedPath, uploadCalls]
  | some p =>
    rcases hupload with h | h
    · cases h
    · subst h
      simp [create_report, hkeys, hparse, stagedPath, uploadCalls]

theorem create_report_creates (env : Env) (parse : String → Option Json)
    (payload : Payload) (pdf : Option PdfFile) (upload : Except String Unit)
    (client : Client) (userId : Nat) (now : Int) (db : Db) (dv : Json)
    (hkeys : missingKeys env = [])
    (hparse : parseDiabeticValues parse payload = .ok dv)
    (hupload : pdf = none ∨ upload = Except.ok ())
    (hfresh : ∀ r ∈ db.reports, r.id < db.nextId) :
    ∃ final : Report,
      (create_report env parse payload pdf upload client userId now db).db =
        { reports := db.reports ++ [final]
          admin_prompts := db.admin_prompts
          nextId := db.nextId + 1 } ∧
      (create_report env parse payload pdf upload client userId now db).resp.body =
        .detail final ∧
      (create_report env parse payload pdf upload client userId now db).calls =
        uploadCalls pdf userId now ++
          [ExtCall.infer (buildSystemPrompt dv db.admin_prompts) pdf.isSome] ∧
      final.id = db.nextId ∧ final.user = userId ∧ final.created_at = now ∧
      final.diabetic_values = dv ∧ final.pdf_file = stagedPath pdf userId now ∧
      (final.status = "done" ∨ final.status = "error") := by
  rw [create_report_eq_finish env parse payload pdf upload client userId now db dv
    hkeys hparse hupload]
  exact finishReport_creates dv (stagedPath pdf userId now) (uploadCalls pdf userId now)
    pdf.isSome client userId now db hfresh

theorem missingKeys_eq_nil_iff {env : Env} :
    missingKeys env = [] ↔
      envTruthy env.SUPABASE_URL = true ∧ envTruthy env.SUPABASE_KEY = true ∧
        envTruthy env.OPENAI_API_KEY = true := by
  unfold missingKeys
  cases h1 : envTruthy env.SUPABASE_URL <;>
    cases h2 : envTruthy env.SUPABASE_KEY <;>
      cases h3 : envTruthy env.OPENAI_API_KEY <;>
        simp [h1, h2, h3, List.filter]

theorem create_report_status_201_or_500 (env : Env) (parse : String → Option Json)
    (payload : Payload) (pdf : Option PdfFile) (upload : Except String Unit)
    (client : Client) (userId : Nat) (now : Int) (db : Db) (dv : Json)
    (hkeys : missingKeys env = [])
    (hparse : parseDiabeticValues parse payload = .ok dv) :
    (create_report env parse payload pdf upload client userId now db).resp.status = 201 ∨
    (create_report env parse payload pdf upload client userId now db).resp.status = 500 := by
  cases pdf with
  | none =>
    rw [create_report_eq_finish env parse payload none upload client userId now db dv
      hkeys hparse (Or.inl rfl)]
    exact finishReport_status dv (stagedPath none userId now) (uploadCalls none userId now)
      (Option.isSome none) client userId now db
  | some p =>
    cases upload with
    | error e =>
      right
      simp [create_report, hkeys, hparse]
    | ok u =>
      cases u
      rw [create_report_eq_finish env parse payload (some p) (Except.ok ()) client userId
        now db dv hkeys hparse (Or.inr rfl)]
      exact finishReport_status dv (stagedPath (some p) userId now)
        (uploadCalls (some p) userId now) (Option.isSome (some p)) client userId now db

/-! ### Claims -/

/-- C10: if any of `SUPABASE_URL`, `SUPABASE_KEY`, `OPENAI_API_KEY` is unset,
`create_report` answers HTTP 500 naming the missing keys, before any payload
validation, record creation or external call: the record store is returned
unchanged, the call trace is empty, and the result does not depend on the
payload, the parser, the document, or either external collaborator. -/
theorem c10_missing_config (env : Env) (parse : String → Option Json)
    (payload : Payload) (pdf : Option PdfFile) (upload : Except String Unit)
    (client : Client) (userId : Nat) (now : Int) (db : Db)
    (hmiss : env.SUPABASE_URL = none ∨ env.SUPABASE_KEY = none ∨
      env.OPENAI_API_KEY = none) :
    missingKeys env ≠ [] ∧
    create_report env parse payload pdf upload client userId now db =
      ⟨⟨500, .errMsg ("Server configuration error: Missing " ++
          String.intercalate ", " (missingKeys env))⟩, db, []⟩ := by
  have hne : missingKeys env ≠ [] := by
    intro hc
    obtain ⟨h1, h2, h3⟩ := missingKeys_eq_nil_iff.1 hc
    rcases hmiss with h | h | h
    · rw [h] at h1; simp [envTruthy] at h1
    · rw [h] at h2; simp [envTruthy] at h2
    · rw [h] at h3; simp [envTruthy] at h3
  refine ⟨hne, ?_⟩
  simp only [create_report, if_pos hne]

/-- C10 witness: with `OPENAI_API_KEY` unset, the call is rejected with the
configuration error and the store is untouched. -/
theorem c10_missing_config_witness :
    missingKeys ⟨some "u", some "k", none⟩ ≠ [] ∧
    create_report ⟨some "u", some "k", none⟩ (fun _ => none) Payload.absent none
        (Except.ok ()) (Client.chatOnly (Except.error "x")) 1 0 ⟨[], [], 0⟩ =
      ⟨⟨500, .errMsg ("Server configuration error: Missing " ++
          String.intercalate ", " (missingKeys ⟨some "u", some "k", none⟩))⟩,
        ⟨[], [], 0⟩, []⟩ :=
  c10_missing_config ⟨some "u", some "k", none⟩ (fun _ => none) Payload.absent none
    (Except.ok ()) (Client.chatOnly (Except.error "x")) 1 0 ⟨[], [], 0⟩
    (Or.inr (Or.inr rfl))

/-- C1 counterexample: at this concrete input the object-store upload fails
and `create_report` returns a bare error body with no persisted Report —
contradicting the claim that the failure is recorded onto an already-created
Report (`status=error`) returned with the 500. -/
theorem c1_counterexample :
    (create_report ⟨some "u", some "k", some "o"⟩ (fun _ => none) Payload.absent
        (some ⟨"report.pdf", "application/pdf", [37, 80]⟩) (Except.error "rejected")
        (Client.chatOnly (Except.ok ⟨"cmpl-1", ["ok"], none⟩)) 7 1000
        ⟨[], [], 0⟩).resp =
      ⟨500, RespBody.errMsg "Failed to upload PDF to storage: rejected"⟩ ∧
    (create_report ⟨some "u", some "k", some "o"⟩ (fun _ => none) Payload.absent
        (some ⟨"report.pdf", "application/pdf", [37, 80]⟩) (Except.error "rejected")
        (Client.chatOnly (Except.ok ⟨"cmpl-1", ["ok"], none⟩)) 7 1000
        ⟨[], [], 0⟩).db.reports = [] :=
  ⟨rfl, rfl⟩

/-- C1 (amended): the upload happens before record creation, so a failed
object-store upload makes `create_report` return HTTP 500 with a bare error
containing the storage failure detail, with no Report created and the
upload as the only external call. -/
theorem c1_upload_failure_bare_error (env : Env) (parse : String → Option Json)
    (payload : Payload) (p : PdfFile) (e : String) (client : Client)
    (userId : Nat) (now : Int) (db : Db) (dv : Json)
    (hkeys : missingKeys env = [])
    (hparse : parseDiabeticValues parse payload = .ok dv) :
    create_report env parse payload (some p) (Except.error e) client userId now db =
      ⟨⟨500, .errMsg ("Failed to upload PDF to storage: " ++ e)⟩, db,
        [ExtCall.upload (mkPdfPath userId now p.name) p.content]⟩ := by
  simp [create_report, hkeys, hparse]

/-- C1 (amended) witness. -/
theorem c1_upload_failure_bare_error_witness :
    create_report ⟨some "u", some "k", some "o"⟩ (fun _ => none) Payload.absent
        (some ⟨"a.pdf", "t", [1]⟩) (Except.error "boom")
        (Client.chatOnly (Except.error "x")) 1 0 ⟨[], [], 0⟩ =
      ⟨⟨500, .errMsg ("Failed to upload PDF to storage: " ++ "boom")⟩, ⟨[], [], 0⟩,
        [ExtCall.upload (mkPdfPath 1 0 "a.pdf") [1]]⟩ :=
  c1_upload_failure_bare_error ⟨some "u", some "k", some "o"⟩ (fun _ => none)
    Payload.absent ⟨"a.pdf", "t", [1]⟩ "boom" (Client.chatOnly (Except.error "x"))
    1 0 ⟨[], [], 0⟩ (Json.obj []) rfl rfl

/-- C2 counterexample: a submission accepted past input validation makes an
external call (the upload) and still leaves no record when that call fails —
so the Report is not created before every external call. -/
theorem c2_counterexample :
    (create_report ⟨some "u", some "k", some "o"⟩ (fun _ => none) Payload.absent
        (some ⟨"cgm.pdf", "application/pdf", [9]⟩) (Except.error "storage down")
        (Client.withResponses (Except.ok ⟨some "r-1", some "text", none⟩)) 2 50
        ⟨[], [], 3⟩).calls =
      [ExtCall.upload "2_50_cgm.pdf" [9]] ∧
    (create_report ⟨some "u", some "k", some "o"⟩ (fun _ => none) Payload.absent
        (some ⟨"cgm.pdf", "application/pdf", [9]⟩) (Except.error "storage down")
        (Client.withResponses (Except.ok ⟨some "r-1", some "text", none⟩)) 2 50
        ⟨[], [], 3⟩).db.reports = [] :=
  ⟨rfl, rfl⟩

/-- C2 (amended): the Report row is created with `status="processing"` after
the object-store upload but before the inference call: once staging
succeeds, a row with the fresh id is persisted for every inference outcome
(also failures), and the trace is the upload (when a document is attached)
followed by the inference call. -/
theorem c2_record_before_inference (env : Env) (parse : String → Option Json)
    (payload : Payload) (pdf : Option PdfFile) (upload : Except String Unit)
    (client : Client) (userId : Nat) (now : Int) (db : Db) (dv : Json)
    (hkeys : missingKeys env = [])
    (hparse : parseDiabeticValues parse payload = .ok dv)
    (hupload : pdf = none ∨ upload = Except.ok ())
    (hfresh : ∀ r ∈ db.reports, r.id < db.nextId) :
    (newReport userId now dv (stagedPath pdf userId now) db.nextId).status =
      "processing" ∧
    (∃ final : Report,
      (create_report env parse payload pdf upload client userId now db).db.reports =
        db.reports ++ [final] ∧
      final.id = db.nextId ∧
      (final.status = "done" ∨ final.status = "error")) ∧
    (create_report env parse payload pdf upload client userId now db).calls =
      uploadCalls pdf userId now ++
        [ExtCall.infer (buildSystemPrompt dv db.admin_prompts) pdf.isSome] := by
  obtain ⟨final, hdb, _, hcalls, hid, _, _, _, _, hstat⟩ :=
    create_report_creates env parse payload pdf upload client userId now db dv
      hkeys hparse hupload hfresh
  refine ⟨rfl, ⟨final, ?_, hid, hstat⟩, hcalls⟩
  rw [hdb]

/-- C2 (amended) witness. -/
theorem c2_record_before_inference_witness :
    (newReport 1 0 (Json.obj []) (stagedPath none 1 0) (0 : Nat)).status =
      "processing" ∧
    (∃ final : Report,
      (create_report ⟨some "u", some "k", some "o"⟩ (fun _ => none) Payload.absent
          none (Except.ok ()) (Client.chatOnly (Except.error "down")) 1 0
          ⟨[], [], 0⟩).db.reports = [] ++ [final] ∧
      final.id = 0 ∧
      (final.status = "done" ∨ final.status = "error")) ∧
    (create_report ⟨some "u", some "k", some "o"⟩ (fun _ => none) Payload.absent
        none (Except.ok ()) (Client.chatOnly (Except.error "down")) 1 0
        ⟨[], [], 0⟩).calls =
      uploadCalls none 1 0 ++
        [ExtCall.infer (buildSystemPrompt (Json.obj []) []) false] :=
  c2_record_before_inference ⟨some "u", some "k", some "o"⟩ (fun _ => none)
    Payload.absent none (Except.ok ()) (Client.chatOnly (Except.error "down")) 1 0
    ⟨[], [], 0⟩ (Json.obj []) rfl rfl (Or.inl rfl) (by simp)

/-- C3: a string `diabetic_values` payload that fails JSON parsing is
rejected with HTTP 400 and the fixed validation message, with the record
store unchanged and no external call; an absent payload instead defaults to
the empty mapping and is never rejected with 400. -/
theorem c3_bad_json_rejected (env : Env) (parse : String → Option Json) (s : String)
    (pdf : Option PdfFile) (upload : Except String Unit) (client : Client)
    (userId : Nat) (now : Int) (db : Db)
    (hkeys : missingKeys env = []) :
    (parse s = none →
      create_report env parse (Payload.str s) pdf upload client userId now db =
        ⟨⟨400, .errMsg "diabetic_values must be valid JSON"⟩, db, []⟩) ∧
    parseDiabeticValues parse Payload.absent = .ok (Json.obj []) ∧
    (create_report env parse Payload.absent pdf upload client userId now db).resp.status ≠
      400 := by
  refine ⟨?_, rfl, ?_⟩
  · intro hp
    simp [create_report, hkeys, parseDiabeticValues, hp]
  · rcases create_report_status_201_or_500 env parse Payload.absent pdf upload client
      userId now db (Json.obj []) hkeys rfl with h | h <;> rw [h] <;> decide

/-- C3 witness: a malformed string payload is rejected with 400 and no
record; an absent payload passes parsing as the empty mapping. -/
theorem c3_bad_json_rejected_witness :
    ((fun _ => (none : Option Json)) "not json" = none →
      create_report ⟨some "u", some "k", some "o"⟩ (fun _ => none)
          (Payload.str "not json") none (Except.ok ())
          (Client.chatOnly (Except.error "x")) 1 0 ⟨[], [], 0⟩ =
        ⟨⟨400, .errMsg "diabetic_values must be valid JSON"⟩, ⟨[], [], 0⟩, []⟩) ∧
    parseDiabeticValues (fun _ => none) Payload.absent = .ok (Json.obj []) ∧
    (create_report ⟨some "u", some "k", some "o"⟩ (fun _ => none) Payload.absent none
        (Except.ok ()) (Client.chatOnly (Except.error "x")) 1 0
        ⟨[], [], 0⟩).resp.status ≠ 400 :=
  c3_bad_json_rejected ⟨some "u", some "k", some "o"⟩ (fun _ => none) "not json"
    none (Except.ok ()) (Client.chatOnly (Except.error "x")) 1 0 ⟨[], [], 0⟩ rfl

/-- C5: the inference result is normalized by capability detection — a
client with the structured-responses capability yields the top-level id
(`getattr(_, "id", "")`), the output text (`or ""`) and the structured
dump; a chat-only client yields the completion id and the first choice's
message content; in both branches the Report is saved with
`status="done"` and returned with HTTP 201. -/
theorem c5_capability_normalization (env : Env) (parse : String → Option Json)
    (payload : Payload) (pdf : Option PdfFile) (upload : Except String Unit)
    (userId : Nat) (now : Int) (db : Db) (dv : Json)
    (sr : StructuredResp) (cr : ChatResp) (c : String) (rest : List String)
    (hkeys : missingKeys env = [])
    (hparse : parseDiabeticValues parse payload = .ok dv)
    (hupload : pdf = none ∨ upload = Except.ok ())
    (hfresh : ∀ r ∈ db.reports, r.id < db.nextId)
    (hch : cr.choiceContents = c :: rest) :
    create_report env parse payload pdf upload (Client.withResponses (Except.ok sr))
        userId now db =
      ⟨⟨201, .detail { newReport userId now dv (stagedPath pdf userId now) db.nextId with
            openai_response_id := sr.id_attr.getD ""
            ai_summary_text := sr.output_text.getD ""
            ai_raw := sr.dump.getD (Json.obj [])
            status := "done" }⟩,
        { reports := db.reports ++
            [{ newReport userId now dv (stagedPath pdf userId now) db.nextId with
              openai_response_id := sr.id_attr.getD ""
              ai_summary_text := sr.output_text.getD ""
              ai_raw := sr.dump.getD (Json.obj [])
              status := "done" }]
          admin_prompts := db.admin_prompts
          nextId := db.nextId + 1 },
        uploadCalls pdf userId now ++
          [ExtCall.infer (buildSystemPrompt dv db.admin_prompts) pdf.isSome]⟩ ∧
    create_report env parse payload pdf upload (Client.chatOnly (Except.ok cr))
        userId now db =
      ⟨⟨201, .detail { newReport userId now dv (stagedPath pdf userId now) db.nextId with
            openai_response_id := cr.id
            ai_summary_text := c
            ai_raw := cr.dump.getD (Json.obj [])
            status := "done" }⟩,
        { reports := db.reports ++
            [{ newReport userId now dv (stagedPath pdf userId now) db.nextId with
              openai_response_id := cr.id
              ai_summary_text := c
              ai_raw := cr.dump.getD (Json.obj [])
              status := "done" }]
          admin_prompts := db.admin_prompts
          nextId := db.nextId + 1 },
        uploadCalls pdf userId now ++
          [ExtCall.infer (buildSystemPrompt dv db.admin_prompts) pdf.isSome]⟩ := by
  constructor
  · rw [create_report_eq_finish env parse payload pdf upload
      (Client.withResponses (Except.ok sr)) userId now db dv hkeys hparse hupload]
    exact @finishReport_ok dv (stagedPath pdf userId now) (uploadCalls pdf userId now)
      pdf.isSome (Client.withResponses (Except.ok sr)) userId now db
      ⟨sr.id_attr.getD "", sr.output_text.getD "", sr.dump.getD (Json.obj [])⟩
      hfresh rfl
  · rw [create_report_eq_finish env parse payload pdf upload
      (Client.chatOnly (Except.ok cr)) userId now db dv hkeys hparse hupload]
    exact @finishReport_ok dv (stagedPath pdf userId now) (uploadCalls pdf userId now)
      pdf.isSome (Client.chatOnly (Except.ok cr)) userId now db
      ⟨cr.id, c, cr.dump.getD (Json.obj [])⟩
      hfresh (by simp [runInference, hch])

/-- C5 witness: both capability shapes at a concrete input. -/
theorem c5_capability_normalization_witness :
    create_report ⟨some "u", some "k", some "o"⟩ (fun _ => none) Payload.absent none
        (Except.ok ()) (Client.withResponses (Except.ok
          ⟨some "resp-1", some "summary", some (Json.obj [("k", Json.num 1)])⟩)) 1 0
        ⟨[], [], 0⟩ =
      ⟨⟨201, .detail { newReport 1 0 (Json.obj []) (stagedPath none 1 0) (0 : Nat) with
            openai_response_id := (some "resp-1").getD ""
            ai_summary_text := (some "summary").getD ""
            ai_raw := (some (Json.obj [("k", Json.num 1)])).getD (Json.obj [])
            status := "done" }⟩,
        { reports := [] ++
            [{ newReport 1 0 (Json.obj []) (stagedPath none 1 0) (0 : Nat) with
              openai_response_id := (some "resp-1").getD ""
              ai_summary_text := (some "summary").getD ""
              ai_raw := (some (Json.obj [("k", Json.num 1)])).getD (Json.obj [])
              status := "done" }]
          admin_prompts := []
          nextId := 0 + 1 },
        uploadCalls none 1 0 ++
          [ExtCall.infer (buildSystemPrompt (Json.obj []) []) false]⟩ ∧
    create_report ⟨some "u", some "k", some "o"⟩ (fun _ => none) Payload.absent none
        (Except.ok ()) (Client.chatOnly (Except.ok ⟨"cmpl-9", ["first", "second"], none⟩))
        1 0 ⟨[], [], 0⟩ =
      ⟨⟨201, .detail { newReport 1 0 (Json.obj []) (stagedPath none 1 0) (0 : Nat) with
            openai_response_id := "cmpl-9"
            ai_summary_text := "first"
            ai_raw := (none : Option Json).getD (Json.obj [])
            status := "done" }⟩,
        { reports := [] ++
            [{ newReport 1 0 (Json.obj []) (stagedPath none 1 0) (0 : Nat) with
              openai_response_id := "cmpl-9"
              ai_summary_text := "first"
              ai_raw := (none : Option Json).getD (Json.obj [])
              status := "done" }]
          admin_prompts := []
          nextId := 0 + 1 },
        uploadCalls none 1 0 ++
          [ExtCall.infer (buildSystemPrompt (Json.obj []) []) false]⟩ :=
  c5_capability_normalization ⟨some "u", some "k", some "o"⟩ (fun _ => none)
    Payload.absent none (Except.ok ()) 1 0 ⟨[], [], 0⟩ (Json.obj [])
    ⟨some "resp-1", some "summary", some (Json.obj [("k", Json.num 1)])⟩
    ⟨"cmpl-9", ["first", "second"], none⟩ "first" ["second"]
    rfl rfl (Or.inl rfl) (by simp) rfl

/-- C8: submission is not idempotent — two successive identical submissions
append two distinct rows whose fresh ids differ; nothing is deduplicated. -/
theorem c8_two_submits_distinct_ids (env : Env) (parse : String → Option Json)
    (payload : Payload) (pdf : Option PdfFile) (upload : Except String Unit)
    (client : Client) (userId : Nat) (now : Int) (db : Db) (dv : Json)
    (hkeys : missingKeys env = [])
    (hparse : parseDiabeticValues parse payload = .ok dv)
    (hupload : pdf = none ∨ upload = Except.ok ())
    (hfresh : ∀ r ∈ db.reports, r.id < db.nextId) :
    ∃ r1 r2 : Report,
      (create_report env parse payload pdf upload client userId now
          (create_report env parse payload pdf upload client userId now db).db).db.reports =
        db.reports ++ [r1, r2] ∧
      r1.id = db.nextId ∧ r2.id = db.nextId + 1 ∧ r1.id ≠ r2.id := by
  obtain ⟨r1, hdb1, _, _, hid1, _, _, _, _, _⟩ :=
    create_report_creates env parse payload pdf upload client userId now db dv
      hkeys hparse hupload hfresh
  have hrep1 : (create_report env parse payload pdf upload client userId now db).db.reports =
      db.reports ++ [r1] := by rw [hdb1]
  have hnext1 : (create_report env parse payload pdf upload client userId now db).db.nextId =
      db.nextId + 1 := by rw [hdb1]
  have hfresh1 : ∀ r ∈ (create_report env parse payload pdf upload client userId now
      db).db.reports,
      r.id < (create_report env parse payload pdf upload client userId now db).db.nextId := by
    intro r hr
    rw [hrep1] at hr
    rw [hnext1]
    rcases List.mem_append.1 hr with h | h
    · have := hfresh r h; omega
    · have hr1 : r = r1 := List.mem_singleton.1 h
      subst hr1
      omega
  obtain ⟨r2, hdb2, _, _, hid2, _, _, _, _, _⟩ :=
    create_report_creates env parse payload pdf upload client userId now
      (create_report env parse payload pdf upload client userId now db).db dv
      hkeys hparse hupload hfresh1
  have hrep2 : (create_report env parse payload pdf upload client userId now
      (create_report env parse payload pdf upload client userId now db).db).db.reports =
      (create_report env parse payload pdf upload client userId now db).db.reports ++ [r2] := by
    rw [hdb2]
  refine ⟨r1, r2, ?_, hid1, ?_, ?_⟩
  · rw [hrep2, hrep1, List.append_assoc]
    simp
  · rw [hid2, hnext1]
  · rw [hid1, hid2, hnext1]
    omega

/-- C8 witness. -/
theorem c8_two_submits_distinct_ids_witness :
    ∃ r1 r2 : Report,
      (create_report ⟨some "u", some "k", some "o"⟩ (fun _ => none) Payload.absent none
          (Except.ok ()) (Client.chatOnly (Except.error "x")) 1 0
          (create_report ⟨some "u", some "k", some "o"⟩ (fun _ => none) Payload.absent
            none (Except.ok ()) (Client.chatOnly (Except.error "x")) 1 0
            ⟨[], [], 0⟩).db).db.reports =
        [] ++ [r1, r2] ∧
      r1.id = 0 ∧ r2.id = 0 + 1 ∧ r1.id ≠ r2.id :=
  c8_two_submits_distinct_ids ⟨some "u", some "k", some "o"⟩ (fun _ => none)
    Payload.absent none (Except.ok ()) (Client.chatOnly (Except.error "x")) 1 0
    ⟨[], [], 0⟩ (Json.obj []) rfl rfl (Or.inl rfl) (by simp)

/-- C4: for a `week` or `month` period, `report_stats` echoes the period,
reports a `count` equal to the length of `data`, returns the data sorted
ascending by `created_at`, and the data is exactly (a permutation of the
sorted image of) the owner's reports whose `created_at` lies in the
trailing 7-day (`week`) or 30-day (otherwise) window, each projected to
the three series of `projectStats`. -/
theorem c4_stats_window (db : Db) (userId : Nat) (now : Int) (period : String)
    (hp : period = "week" ∨ period = "month") :
    (report_stats db userId (some period) now).period = period ∧
    (report_stats db userId (some period) now).count =
      (report_stats db userId (some period) now).data.length ∧
    List.Pairwise (fun a b : StatsItem => a.created_at ≤ b.created_at)
      (report_stats db userId (some period) now).data ∧
    ((report_stats db userId (some period) now).data).Perm
      ((db.reports.filter (fun r => r.user == userId &&
          now - (if period = "week" then (7 : Int) else 30) * secondsPerDay ≤
            r.created_at)).map projectStats) ∧
    ∀ it ∈ (report_stats db userId (some period) now).data,
      ∃ r ∈ db.reports, r.user = userId ∧
        now - (if period = "week" then (7 : Int) else 30) * secondsPerDay ≤
          r.created_at ∧
        it = projectStats r := by
  have hdata : (report_stats db userId (some period) now).data =
      (sortByCreated (db.reports.filter (fun r => r.user == userId &&
        now - (if period = "week" then (7 : Int) else 30) * secondsPerDay ≤
          r.created_at))).map projectStats := rfl
  refine ⟨rfl, rfl, ?_, ?_, ?_⟩
  · rw [hdata]
    exact List.pairwise_map.mpr (List.sorted_insertionSort createdLE _)
  · rw [hdata]
    exact List.Perm.map projectStats (List.perm_insertionSort createdLE _)
  · intro it hit
    rw [hdata] at hit
    obtain ⟨r, hrs, hproj⟩ := List.mem_map.1 hit
    have hrf : r ∈ db.reports.filter (fun r => r.user == userId &&
        now - (if period = "week" then (7 : Int) else 30) * secondsPerDay ≤
          r.created_at) := by
      simpa only [sortByCreated, List.mem_insertionSort] using hrs
    obtain ⟨hmem, hpred⟩ := List.mem_filter.1 hrf
    rw [Bool.and_eq_true] at hpred
    obtain ⟨h1, h2⟩ := hpred
    exact ⟨r, hmem, by simpa using h1, of_decide_eq_true h2, hproj.symm⟩

/-- C4 witness: one in-window and one out-of-window report for the owner,
plus a foreign report, with period `week`. -/
theorem c4_stats_window_witness :
    (report_stats ⟨[⟨10, 1, Json.obj [("bolus_ratio", Json.arr [Json.num 3])], "", "",
          Json.obj [], "", "done", "", 820000⟩,
        ⟨11, 1, Json.obj [], "", "", Json.obj [], "", "done", "", 100⟩,
        ⟨12, 2, Json.obj [], "", "", Json.obj [], "", "done", "", 900000⟩], [], 13⟩
      1 (some "week") 1000000).period = "week" ∧
    (report_stats ⟨[⟨10, 1, Json.obj [("bolus_ratio", Json.arr [Json.num 3])], "", "",
          Json.obj [], "", "done", "", 820000⟩,
        ⟨11, 1, Json.obj [], "", "", Json.obj [], "", "done", "", 100⟩,
        ⟨12, 2, Json.obj [], "", "", Json.obj [], "", "done", "", 900000⟩], [], 13⟩
      1 (some "week") 1000000).count =
      (report_stats ⟨[⟨10, 1, Json.obj [("bolus_ratio", Json.arr [Json.num 3])], "", "",
          Json.obj [], "", "done", "", 820000⟩,
        ⟨11, 1, Json.obj [], "", "", Json.obj [], "", "done", "", 100⟩,
        ⟨12, 2, Json.obj [], "", "", Json.obj [], "", "done", "", 900000⟩], [], 13⟩
      1 (some "week") 1000000).data.length ∧
    List.Pairwise (fun a b : StatsItem => a.created_at ≤ b.created_at)
      (report_stats ⟨[⟨10, 1, Json.obj [("bolus_ratio", Json.arr [Json.num 3])], "", "",
          Json.obj [], "", "done", "", 820000⟩,
        ⟨11, 1, Json.obj [], "", "", Json.obj [], "", "done", "", 100⟩,
        ⟨12, 2, Json.obj [], "", "", Json.obj [], "", "done", "", 900000⟩], [], 13⟩
      1 (some "week") 1000000).data ∧
    ((report_stats ⟨[⟨10, 1, Json.obj [("bolus_ratio", Json.arr [Json.num 3])], "", "",
          Json.obj [], "", "done", "", 820000⟩,
        ⟨11, 1, Json.obj [], "", "", Json.obj [], "", "done", "", 100⟩,
        ⟨12, 2, Json.obj [], "", "", Json.obj [], "", "done", "", 900000⟩], [], 13⟩
      1 (some "week") 1000000).data).Perm
      (((⟨[⟨10, 1, Json.obj [("bolus_ratio", Json.arr [Json.num 3])], "", "",
          Json.obj [], "", "done", "", 820000⟩,
        ⟨11, 1, Json.obj [], "", "", Json.obj [], "", "done", "", 100⟩,
        ⟨12, 2, Json.obj [], "", "", Json.obj [], "", "done", "", 900000⟩], [], 13⟩ :
          Db).reports.filter (fun r => r.user == 1 &&
          (1000000 : Int) - (if "week" = "week" then (7 : Int) else 30) * secondsPerDay ≤
            r.created_at)).map projectStats) ∧
    ∀ it ∈ (report_stats ⟨[⟨10, 1, Json.obj [("bolus_ratio", Json.arr [Json.num 3])], "",
          "", Json.obj [], "", "done", "", 820000⟩,
        ⟨11, 1, Json.obj [], "", "", Json.obj [], "", "done", "", 100⟩,
        ⟨12, 2, Json.obj [], "", "", Json.obj [], "", "done", "", 900000⟩], [], 13⟩
      1 (some "week") 1000000).data,
      ∃ r ∈ (⟨[⟨10, 1, Json.obj [("bolus_ratio", Json.arr [Json.num 3])], "", "",
          Json.obj [], "", "done", "", 820000⟩,
        ⟨11, 1, Json.obj [], "", "", Json.obj [], "", "done", "", 100⟩,
        ⟨12, 2, Json.obj [], "", "", Json.obj [], "", "done", "", 900000⟩], [], 13⟩ :
          Db).reports, r.user = 1 ∧
        (1000000 : Int) - (if "week" = "week" then (7 : Int) else 30) * secondsPerDay ≤
          r.created_at ∧
        it = projectStats r :=
  c4_stats_window ⟨[⟨10, 1, Json.obj [("bolus_ratio", Json.arr [Json.num 3])], "", "",
        Json.obj [], "", "done", "", 820000⟩,
      ⟨11, 1, Json.obj [], "", "", Json.obj [], "", "done", "", 100⟩,
      ⟨12, 2, Json.obj [], "", "", Json.obj [], "", "done", "", 900000⟩], [], 13⟩
    1 1000000 "week" (Or.inl rfl)

/-- C9: any present `period` other than `"week"` (such as `"month"` or an
unrecognized string) selects the 30-day window without rejecting the
request, and the supplied string is echoed unvalidated in the response;
an absent `period` defaults to `"week"` and the 7-day window. -/
theorem c9_period_fallback (db : Db) (userId : Nat) (now : Int) (p : String)
    (hp : p ≠ "week") :
    (report_stats db userId (some p) now).period = p ∧
    (report_stats db userId (some p) now).data =
      (sortByCreated (db.reports.filter (fun r => r.user == userId &&
        now - 30 * secondsPerDay ≤ r.created_at))).map projectStats ∧
    (report_stats db userId none now).period = "week" ∧
    (report_stats db userId none now).data =
      (sortByCreated (db.reports.filter (fun r => r.user == userId &&
        now - 7 * secondsPerDay ≤ r.created_at))).map projectStats := by
  refine ⟨rfl, ?_, rfl, ?_⟩
  · have h : (report_stats db userId (some p) now).data =
        (sortByCreated (db.reports.filter (fun r => r.user == userId &&
          now - (if p = "week" then (7 : Int) else 30) * secondsPerDay ≤
            r.created_at))).map projectStats := rfl
    rw [h, if_neg hp]
  · rfl

/-- C9 witness: the unrecognized period `"quarter"` is echoed and treated
as a 30-day window. -/
theorem c9_period_fallback_witness :
    (report_stats ⟨[⟨4, 1, Json.obj [], "", "", Json.obj [], "", "done", "", 0⟩], [], 5⟩
      1 (some "quarter") 2000000).period = "quarter" ∧
    (report_stats ⟨[⟨4, 1, Json.obj [], "", "", Json.obj [], "", "done", "", 0⟩], [], 5⟩
      1 (some "quarter") 2000000).data =
      (sortByCreated ((⟨[⟨4, 1, Json.obj [], "", "", Json.obj [], "", "done", "", 0⟩],
          [], 5⟩ : Db).reports.filter (fun r => r.user == 1 &&
        (2000000 : Int) - 30 * secondsPerDay ≤ r.created_at))).map projectStats ∧
    (report_stats ⟨[⟨4, 1, Json.obj [], "", "", Json.obj [], "", "done", "", 0⟩], [], 5⟩
      1 none 2000000).period = "week" ∧
    (report_stats ⟨[⟨4, 1, Json.obj [], "", "", Json.obj [], "", "done", "", 0⟩], [], 5⟩
      1 none 2000000).data =
      (sortByCreated ((⟨[⟨4, 1, Json.obj [], "", "", Json.obj [], "", "done", "", 0⟩],
          [], 5⟩ : Db).reports.filter (fun r => r.user == 1 &&
        (2000000 : Int) - 7 * secondsPerDay ≤ r.created_at))).map projectStats :=
  c9_period_fallback ⟨[⟨4, 1, Json.obj [], "", "", Json.obj [], "", "done", "", 0⟩],
    [], 5⟩ 1 2000000 "quarter" (by decide)

/-- C6: the detail lookup is scoped to the owner — it returns a report only
when one with the requested id is owned by the caller, and otherwise
(nonexistent id and foreign-owner id alike) yields the single uniform
not-found outcome, so the two failure causes are indistinguishable. -/
theorem c6_uniform_not_found (sign : String → Option String) (db : Db)
    (userId pk : Nat) :
    ((∃ r ∈ db.reports, r.id = pk ∧ r.user = userId) →
      ∃ r ∈ db.reports, r.id = pk ∧ r.user = userId ∧
        get_report_detail sign db userId pk =
          DetailResult.found r (if r.pdf_file ≠ "" then sign r.pdf_file else none)) ∧
    ((¬ ∃ r ∈ db.reports, r.id = pk ∧ r.user = userId) →
      get_report_detail sign db userId pk = notFoundResult) := by
  constructor
  · intro hex
    cases hfind : db.reports.find? (fun r => r.id == pk && r.user == userId) with
    | none =>
      exfalso
      obtain ⟨r, hr, hid, hu⟩ := hex
      have := List.find?_eq_none.1 hfind r hr
      simp [hid, hu] at this
    | some r =>
      have hmem := List.mem_of_find?_eq_some hfind
      have hpred := List.find?_some hfind
      rw [Bool.and_eq_true] at hpred
      obtain ⟨h1, h2⟩ := hpred
      refine ⟨r, hmem, by simpa using h1, by simpa using h2, ?_⟩
      simp [get_report_detail, hfind]
  · intro hnex
    cases hfind : db.reports.find? (fun r => r.id == pk && r.user == userId) with
    | none => simp [get_report_detail, hfind]
    | some r =>
      exfalso
      apply hnex
      have hmem := List.mem_of_find?_eq_some hfind
      have hpred := List.find?_some hfind
      rw [Bool.and_eq_true] at hpred
      obtain ⟨h1, h2⟩ := hpred
      exact ⟨r, hmem, by simpa using h1, by simpa using h2⟩

/-- C6 witness: with one report (id 10, owner 1), the foreign-owner lookup
and the nonexistent-id lookup produce the same uniform not-found result. -/
theorem c6_uniform_not_found_witness :
    get_report_detail (fun _ => none)
      ⟨[⟨10, 1, Json.obj [], "", "", Json.obj [], "", "done", "", 0⟩], [], 11⟩ 2 10 =
      notFoundResult ∧
    get_report_detail (fun _ => none)
      ⟨[⟨10, 1, Json.obj [], "", "", Json.obj [], "", "done", "", 0⟩], [], 11⟩ 1 99 =
      notFoundResult :=
  ⟨(c6_uniform_not_found (fun _ => none)
      ⟨[⟨10, 1, Json.obj [], "", "", Json.obj [], "", "done", "", 0⟩], [], 11⟩ 2 10).2
      (by intro h; obtain ⟨r, hr, hid, hu⟩ := h; simp at hr; subst hr; simp at hu),
    (c6_uniform_not_found (fun _ => none)
      ⟨[⟨10, 1, Json.obj [], "", "", Json.obj [], "", "done", "", 0⟩], [], 11⟩ 1 99).2
      (by intro h; obtain ⟨r, hr, hid, hu⟩ := h; simp at hr; subst hr; simp at hid)⟩

/-- C7 counterexample: with a single active policy whose instructions are
the empty string, the source's prompt construction leaves the template
unchanged, while the claim's reading appends the additional-instructions
section for every active policy — the two disagree, so the claim as stated
fails on the code. -/
theorem c7_counterexample :
    buildSystemPrompt (Json.obj []) [⟨true, "", 5⟩] ≠
      buildSystemPromptClaim (Json.obj []) [⟨true, "", 5⟩] := by
  intro h
  have h1 : buildSystemPrompt (Json.obj []) [⟨true, "", 5⟩] =
      systemPromptTemplate (Json.obj []) := rfl
  have h2 : buildSystemPromptClaim (Json.obj []) [⟨true, "", 5⟩] =
      systemPromptTemplate (Json.obj []) ++ "\n\n### Additional Instructions\n" ++ "" :=
    rfl
  rw [h1, h2] at h
  have hlen := congrArg String.length h
  rw [String.length_append, String.length_append] at hlen
  have hhdr : ("\n\n### Additional Instructions\n" : String).length = 30 := rfl
  have hnil : ("" : String).length = 0 := rfl
  rw [hhdr, hnil] at hlen
  omega

/-- C7 (amended): prompt construction applies exactly the most-recently
updated active policy, and only when its instructions are nonempty: no
active policy, or an active policy with empty instructions, leaves the
fixed template unchanged; a nonempty one is appended verbatim after the
additional-instructions header. -/
theorem c7_policy_application (dv : Json) (ps : List AdminPrompt) :
    (mostRecentActive ps = none ↔ ∀ q ∈ ps, q.is_active = false) ∧
    (mostRecentActive ps = none → buildSystemPrompt dv ps = systemPromptTemplate dv) ∧
    ∀ p, mostRecentActive ps = some p →
      p ∈ ps ∧ p.is_active = true ∧
      (∀ q ∈ ps, q.is_active = true → q.updated_at ≤ p.updated_at) ∧
      (p.custom_instructions ≠ "" →
        buildSystemPrompt dv ps =
          systemPromptTemplate dv ++ "\n\n### Additional Instructions\n" ++
            p.custom_instructions) ∧
      (p.custom_instructions = "" → buildSystemPrompt dv ps = systemPromptTemplate dv) := by
  refine ⟨mostRecentActive_none_iff, ?_, ?_⟩
  · intro h
    simp [buildSystemPrompt, h]
  · intro p hp
    obtain ⟨hmem, hact, hmax⟩ := mostRecentActive_some_spec hp
    refine ⟨hmem, hact, hmax, ?_, ?_⟩
    · intro hne
      simp [buildSystemPrompt, hp, hne]
    · intro he
      simp [buildSystemPrompt, hp, he]

set_option maxRecDepth 8000 in
/-- C7 (amended) witness: among two active policies the more recently
updated one is appended, verbatim, after the header. -/
theorem c7_policy_application_witness :
    buildSystemPrompt (Json.obj [])
        [⟨true, "Be brief.", 3⟩, ⟨true, "Old guidance.", 1⟩, ⟨false, "Hidden.", 9⟩] =
      systemPromptTemplate (Json.obj []) ++ "\n\n### Additional Instructions\n" ++
        "Be brief." :=
  (((c7_policy_application (Json.obj [])
      [⟨true, "Be brief.", 3⟩, ⟨true, "Old guidance.", 1⟩, ⟨false, "Hidden.", 9⟩]).2.2
    ⟨true, "Be brief.", 3⟩ rfl).2.2.2.1) (by decide)

end Glucowizard
